import Mathlib

/-!
Verification of `src/App.js` of the image-analyzer app: the
retry-with-backoff helper, the `analyzeImage` generation flow, the request
payload construction, and the clipboard-copy notifications, shallowly
embedded in Lean.

Modelling conventions.
* A JavaScript error object is `JsError`; its `status` field may be absent
  (`none`), mirroring `err.status === 429` on errors without a status.
* An async operation passed to `backoff` is a function `Nat → ApiResult α`
  giving the outcome of the i-th call (0-based); the promise chain becomes
  the explicit trace `BackoffTrace` recording the result, the number of
  calls made and the `setTimeout` delays awaited, in order.
* Browser `fetch` resolves with a `Response` for every HTTP status
  (including 429) and rejects only on network failure, whose `TypeError`
  carries no `status` field; `FetchOutcome` keeps both cases.
* JSON values are the inductive `Json`; optional chaining `a?.b` is
  `Option.bind` with `Json.get` / `Json.idx`, and JavaScript truthiness of
  the chained value is `Json.truthy` (the `|| fallback` in the source).
-/

/-- A JavaScript error value as seen by `backoff`: the `status` property is
`none` when absent (e.g. a `TypeError` from a network failure or a plain
`new Error(...)`). -/
structure JsError where
  status : Option Nat
  message : String
  deriving Repr, DecidableEq

/-- Outcome of one call of the operation handed to `backoff`: the promise
either fulfills with a value or rejects with a `JsError`. -/
inductive ApiResult (α : Type) where
  | ok (v : α)
  | err (e : JsError)
  deriving Repr

/-- Observable behaviour of one run of `backoff`: the settled result, the
total number of calls of the operation, and the list of `setTimeout`
delays awaited before each retry, in order. -/
structure BackoffTrace (α : Type) where
  result : Except JsError α
  calls : Nat
  delays : List Nat
  deriving Repr

/-- The `backoff` helper of `App.js` (lines 64–78): run `fn`; on fulfilment
resolve; on rejection, if `retries > 0 && err.status === 429`, wait `delay`
and recurse with `retries - 1` and `delay * 2`, else reject with the error.
The JS defaults are `retries = 5`, `delay = 1000`.  `attempt` indexes the
calls of `fn` so that a whole run is traced. -/
def backoffRun {α : Type} (fn : Nat → ApiResult α) (retries delay attempt : Nat) :
    BackoffTrace α :=
  match fn attempt with
  | .ok v => { result := .ok v, calls := 1, delays := [] }
  | .err e =>
    match retries with
    | 0 => { result := .error e, calls := 1, delays := [] }
    | r + 1 =>
      if e.status = some 429 then
        let rest := backoffRun fn r (delay * 2) (attempt + 1)
        { result := rest.result, calls := rest.calls + 1, delays := delay :: rest.delays }
      else
        { result := .error e, calls := 1, delays := [] }

/-- A JSON value, as parsed from a response body or built for a request
payload. -/
inductive Json where
  | null
  | bool (b : Bool)
  | num (n : Int)
  | str (s : String)
  | arr (elems : List Json)
  | obj (fields : List (String × Json))
  deriving Repr

/-- Optional chaining `j?.key`: a field lookup that yields `none`
(JavaScript `undefined`) when `j` is not an object or lacks the key. -/
def Json.get (j : Json) (key : String) : Option Json :=
  match j with
  | .obj fields => fields.lookup key
  | _ => none

/-- Optional chaining `j?.[i]`: an index lookup that yields `none` when `j`
is not an array or the index is out of range. -/
def Json.idx (j : Json) (i : Nat) : Option Json :=
  match j with
  | .arr elems => elems.get? i
  | _ => none

/-- JavaScript truthiness of a JSON value: `null`, `false`, `0` and the
empty string are falsy; objects and arrays are truthy. -/
def Json.truthy : Json → Bool
  | .null => false
  | .bool b => b
  | .num n => n != 0
  | .str s => s != ""
  | .arr _ => true
  | .obj _ => true

/-- Length of a JSON array, `none` on non-arrays. -/
def Json.arrLen : Json → Option Nat
  | .arr elems => some elems.length
  | _ => none

/-- The chain `result?.candidates?.[0]?.content?.parts?.[0]?.text` of
`App.js` line 115; `none` is JavaScript `undefined`. -/
def extractText (result : Json) : Option Json :=
  ((((((result.get "candidates").bind (·.idx 0)).bind
    (·.get "content")).bind (·.get "parts")).bind (·.idx 0)).bind (·.get "text"))

/-- The literal fallback prompt of `App.js` line 115. -/
def fallbackPrompt : String :=
  "No se pudo generar el prompt. Por favor, inténtelo de nuevo."

/-- The `generatedText` of `App.js` line 115: the extracted chain value if it is
truthy, otherwise the literal fallback string (the `||`). -/
def generatedText (result : Json) : Json :=
  match extractText result with
  | some v => if v.truthy then v else .str fallbackPrompt
  | none => .str fallbackPrompt

/-- The authentication error message set on `App.js` line 58. -/
def authErrorMsg : String := "Error de autenticación. Por favor, inténtelo de nuevo."

/-- The generic analysis error message set on `App.js` line 120. -/
def genericErrorMsg : String := "Ocurrió un error al analizar la imagen. Inténtelo de nuevo."

/-- An HTTP response as `fetch` delivers it: the status code and the parsed
JSON body (`response.json()`). -/
structure Response where
  status : Nat
  body : Json
  deriving Repr

/-- The `response.ok` getter of the fetch specification: status in the inclusive range
200–299. -/
def Response.ok (r : Response) : Bool := 200 ≤ r.status && r.status ≤ 299

/-- Outcome of one `fetch` call: the promise resolves with a `Response` for
EVERY HTTP status (429 included) and rejects only on network failure, with
an error that carries no `status` field; `rejected` nevertheless allows an
arbitrary `JsError` so the model covers a superset of real behaviours. -/
inductive FetchOutcome where
  | resolved (r : Response)
  | rejected (e : JsError)
  deriving Repr

/-- How `backoff` sees the thunk `() => fetch(...)`: resolution is
fulfilment, rejection is a `JsError`. -/
def FetchOutcome.toApiResult : FetchOutcome → ApiResult Response
  | .resolved r => .ok r
  | .rejected e => .err e

/-- The UI state touched by `analyzeImage`: the `loading`, `error` and
`prompt` React state hooks.  `prompt` is a `Json` value because
`setPrompt` receives whatever the extraction chain produced. -/
structure UIState where
  loading : Bool
  error : String
  prompt : Json
  deriving Repr

/-- Observable outcome of one run of `analyzeImage`: the final UI state,
how often the anonymous sign-in was attempted and how many calls reached
the generation endpoint. -/
structure AnalyzeOutcome where
  state : UIState
  authAttempts : Nat
  fetchCalls : Nat
  deriving Repr

/-- The `analyzeImage` flow of `App.js` lines 50–124.  `authOk` is whether
`signInAnonymously` fulfills; `fetchB i` is the outcome of the i-th `fetch`
to the generation endpoint; `st` is the UI state on entry.  The function
sets `loading`/`error`, attempts sign-in once (returning the auth message
on failure, without any fetch), then runs the fetch thunk through `backoff`
with the default `retries = 5`, `delay = 1000`; a rejection of the backoff
promise or a non-ok response status lands in the `catch` with the generic
message, and an ok response sets the prompt to `generatedText` of its
body; `finally` clears `loading`. -/
def analyzeImage (authOk : Bool) (fetchB : Nat → FetchOutcome) (st : UIState) :
    AnalyzeOutcome :=
  let st1 : UIState := { st with loading := true, error := "" }
  if authOk then
    let tr := backoffRun (fun i => (fetchB i).toApiResult) 5 1000 0
    match tr.result with
    | .error _ =>
      { state := { st1 with error := genericErrorMsg, loading := false },
        authAttempts := 1, fetchCalls := tr.calls }
    | .ok response =>
      if response.ok then
        { state := { st1 with prompt := generatedText response.body, loading := false },
          authAttempts := 1, fetchCalls := tr.calls }
      else
        { state := { st1 with error := genericErrorMsg, loading := false },
          authAttempts := 1, fetchCalls := tr.calls }
  else
    { state := { st1 with error := authErrorMsg, loading := false },
      authAttempts := 1, fetchCalls := 0 }

/-- The fixed instructional text of the request payload (`App.js` line 88). -/
def instructionText : String :=
  "Analyze this image. Generate a detailed, hyperrealistic image generation prompt in English. The prompt should meticulously describe the camera settings (e.g., camera model, lens, aperture, shutter speed, ISO), the lighting conditions (e.g., natural light, studio, time of day), the color grading and color palette, and the compositional elements (e.g., rule of thirds, leading lines, framing). The prompt should be ready to use for an AI image generator and be highly descriptive to achieve a photorealistic result."

/-- The request payload of `App.js` lines 82–99: a single `contents` entry
of role `user` whose parts are the instructional text and the inline PNG
data. -/
def payload (base64ImageData : String) : Json :=
  .obj [("contents", .arr [
    .obj [
      ("role", .str "user"),
      ("parts", .arr [
        .obj [("text", .str instructionText)],
        .obj [("inlineData", .obj [
          ("mimeType", .str "image/png"),
          ("data", .str base64ImageData)])]])]])]

/-- The success alert text of `App.js` lines 138 and 149. -/
def copySuccessMsg : String := "Prompt copiado al portapapeles!"

/-- The failure alert text of `App.js` line 141. -/
def copyErrorMsg : String := "Error al copiar el prompt. Inténtelo de nuevo."

/-- The clipboard environment of one invocation: whether
`navigator.clipboard && navigator.clipboard.writeText` exists, whether
`writeText` fulfills, and whether the `copy` command of
`document.execCommand` throws in the fallback. -/
structure ClipEnv where
  primaryAvailable : Bool
  primaryWriteSucceeds : Bool
  execCommandThrows : Bool
  deriving Repr

/-- The `copyToClipboardFallback` helper of `App.js` lines 131–144: alerts success
unless `execCommand` throws, in which case it alerts the error.  The copied
`text` does not influence which alert fires.  Returns the alerts shown, in
order. -/
def copyToClipboardFallback (_text : String) (env : ClipEnv) : List String :=
  if env.execCommandThrows then [copyErrorMsg] else [copySuccessMsg]

/-- The `copyPromptToClipboard` handler of `App.js` lines 129–158: try
`navigator.clipboard.writeText` when available, falling back to
`copyToClipboardFallback` on rejection or unavailability.  Returns the
alerts shown, in order. -/
def copyPromptToClipboard (prompt : String) (env : ClipEnv) : List String :=
  if env.primaryAvailable then
    if env.primaryWriteSucceeds then [copySuccessMsg]
    else copyToClipboardFallback prompt env
  else copyToClipboardFallback prompt env

/-! ## Lemmas about the backoff helper -/

/-- The geometric delay list for `r + 1` retries at initial delay `d` is `d`
followed by the list for `r` retries at initial delay `d * 2`. -/
lemma geomDelays_succ (d r : Nat) :
    (List.range (r + 1)).map (fun i => d * 2 ^ i)
      = d :: (List.range r).map (fun i => d * 2 * 2 ^ i) := by
  rw [List.range_succ_eq_map, List.map_cons, List.map_map]
  refine congrArg₂ _ (by simp) (List.map_congr_left ?_)
  intro i _
  simp only [Function.comp_apply, pow_succ]
  ring

/-- Trace of `backoffRun` when every call from attempt `a` on rejects with a
status-429 error: all `r + 1` calls happen, the delays double from `d`, and
the rejection carries the error of the last call. -/
lemma backoffRun_allFail429 {α : Type} (fn : Nat → ApiResult α) (e : Nat → JsError)
    (hf : ∀ i, fn i = .err (e i)) (h429 : ∀ i, (e i).status = some 429) :
    ∀ (r d a : Nat), backoffRun fn r d a =
      { result := .error (e (a + r)), calls := r + 1,
        delays := (List.range r).map (fun i => d * 2 ^ i) } := by
  intro r
  induction r with
  | zero =>
    intro d a
    simp [backoffRun, hf a]
  | succ r ih =>
    intro d a
    have harith : a + 1 + r = a + (r + 1) := by omega
    rw [backoffRun, hf a]
    simp only [h429 a, eq_self_iff_true, if_true]
    rw [ih (d * 2) (a + 1), geomDelays_succ, harith]

/-- Trace of `backoffRun` when the calls from attempt `a` on reject with
status-429 errors exactly `k` times and the next call fulfills with `v`,
provided `k ≤ retries`: the run fulfills with `v` after `k + 1` calls with
doubling delays from `d`. -/
lemma backoffRun_fail_then_ok {α : Type} (fn : Nat → ApiResult α) (v : α) :
    ∀ (k r d a : Nat),
      (∀ i, i < k → ∃ e, fn (a + i) = .err e ∧ e.status = some 429) →
      fn (a + k) = .ok v → k ≤ r →
      backoffRun fn r d a =
        { result := .ok v, calls := k + 1,
          delays := (List.range k).map (fun i => d * 2 ^ i) } := by
  intro k
  induction k with
  | zero =>
    intro r d a _ hs _
    rw [backoffRun]
    rw [Nat.add_zero] at hs
    rw [hs]
    simp
  | succ k ih =>
    intro r d a hk hs hr
    obtain ⟨e0, he0, hst0⟩ := hk 0 (Nat.succ_pos k)
    rw [Nat.add_zero] at he0
    cases r with
    | zero => omega
    | succ r =>
      rw [backoffRun, he0]
      simp only [hst0, eq_self_iff_true, if_true]
      have hk' : ∀ i, i < k → ∃ e, fn (a + 1 + i) = .err e ∧ e.status = some 429 := by
        intro i hi
        have := hk (i + 1) (by omega)
        have harith : a + (i + 1) = a + 1 + i := by omega
        rwa [harith] at this
      have hs' : fn (a + 1 + k) = .ok v := by
        have harith : a + (k + 1) = a + 1 + k := by omega
        rwa [harith] at hs
      rw [ih r (d * 2) (a + 1) hk' hs' (by omega), geomDelays_succ]

/-! ## Claim theorems: the backoff helper -/

/-- C1: if the operation rejects with a status-429 error on its first `k`
calls and fulfills with `v` on the next, and the maximum number of retries
`r` is at least `k`, then `backoff` fulfills with `v`, the operation is
called exactly `k + 1` times sequentially, and the wait before the i-th
retry (1-based) is `d * 2 ^ (i - 1)`: the delays are exactly
`[d, d * 2, d * 4, ...]`, each double the previous, starting at the initial
delay (`1000` by default in the source). -/
theorem backoff_succeeds_after_k_429s {α : Type} (fn : Nat → ApiResult α) (v : α)
    (k r d : Nat)
    (hk : ∀ i, i < k → ∃ e, fn i = .err e ∧ e.status = some 429)
    (hs : fn k = .ok v) (hr : k ≤ r) :
    backoffRun fn r d 0 =
      { result := .ok v, calls := k + 1,
        delays := (List.range k).map (fun i => d * 2 ^ i) } := by
  refine backoffRun_fail_then_ok fn v k r d 0 ?_ ?_ hr
  · intro i hi
    simpa using hk i hi
  · simpa using hs

/-- Witness for C1: an operation rejecting with status 429 exactly twice
then fulfilling with `7`, under the default `retries = 5`, `delay = 1000`,
fulfills with `7` after three calls, having waited 1000 then 2000. -/
theorem backoff_succeeds_after_k_429s_witness :
    backoffRun (fun i => if i < 2 then .err ⟨some 429, "rate"⟩ else .ok 7) 5 1000 0
      = { result := .ok 7, calls := 3, delays := [1000, 2000] } :=
  backoff_succeeds_after_k_429s (fun i => if i < 2 then .err ⟨some 429, "rate"⟩ else .ok 7)
    7 2 5 1000
    (fun i hi => ⟨⟨some 429, "rate"⟩, if_pos hi, rfl⟩) rfl (by omega)

/-- C2: if every call of the operation rejects with a status-429 error,
then `backoff` with `r` retries calls the operation exactly `r + 1` times
and rejects with the error of the last call (the error is propagated, not
swallowed); with `r = 0` in particular the delay list is empty, so the
error propagates without any wait. -/
theorem backoff_allFail429_exhausts {α : Type} (fn : Nat → ApiResult α)
    (e : Nat → JsError) (r d : Nat)
    (hf : ∀ i, fn i = .err (e i)) (h429 : ∀ i, (e i).status = some 429) :
    backoffRun fn r d 0 =
      { result := .error (e r), calls := r + 1,
        delays := (List.range r).map (fun i => d * 2 ^ i) } := by
  have := backoffRun_allFail429 fn e hf h429 r d 0
  simpa using this

/-- Witness for C2: an operation always rejecting with status 429, with two
retries allowed, is called three times and the rejection is propagated;
with zero retries it is called once with no wait. -/
theorem backoff_allFail429_exhausts_witness :
    backoffRun (fun _ => ApiResult.err (α := Nat) ⟨some 429, "rate"⟩) 2 1000 0
      = { result := .error ⟨some 429, "rate"⟩, calls := 3, delays := [1000, 2000] }
    ∧ backoffRun (fun _ => ApiResult.err (α := Nat) ⟨some 429, "rate"⟩) 0 1000 0
      = { result := .error ⟨some 429, "rate"⟩, calls := 1, delays := [] } :=
  ⟨backoff_allFail429_exhausts (fun _ => .err ⟨some 429, "rate"⟩)
      (fun _ => ⟨some 429, "rate"⟩) 2 1000 (fun _ => rfl) (fun _ => rfl),
   backoff_allFail429_exhausts (fun _ => .err ⟨some 429, "rate"⟩)
      (fun _ => ⟨some 429, "rate"⟩) 0 1000 (fun _ => rfl) (fun _ => rfl)⟩

/-- C3: if the first call of the operation rejects with an error whose
status is not 429, `backoff` rejects with that error immediately: exactly
one call, no retry and no wait, whatever the remaining-retries count. -/
theorem backoff_non429_no_retry {α : Type} (fn : Nat → ApiResult α) (e : JsError)
    (r d : Nat) (hf : fn 0 = .err e) (h : e.status ≠ some 429) :
    backoffRun fn r d 0 = { result := .error e, calls := 1, delays := [] } := by
  cases r with
  | zero => rw [backoffRun, hf]
  | succ r => rw [backoffRun, hf]; simp [h]

/-- Witness for C3: an operation rejecting with a status-500 error is not
retried even with five retries available. -/
theorem backoff_non429_no_retry_witness :
    backoffRun (fun _ => ApiResult.err (α := Nat) ⟨some 500, "server"⟩) 5 1000 0
      = { result := .error ⟨some 500, "server"⟩, calls := 1, delays := [] } :=
  backoff_non429_no_retry (fun _ => .err ⟨some 500, "server"⟩) ⟨some 500, "server"⟩
    5 1000 rfl (by simp)

/-! ## Claim theorems: the analyzeImage flow -/

/-- C4 (evaluation at the failing input): when every call to the generation
endpoint yields an HTTP 429 response, the flow makes exactly ONE call to
the endpoint — not six — and displays the generic failure string.  The
browser `fetch` promise resolves on HTTP 429, so `backoff` sees a
fulfilment and never retries; the `Error` thrown on `!response.ok` carries
no `status` field and is thrown after `backoff` already resolved. -/
theorem analyze_http429_one_call (st : UIState) :
    analyzeImage true (fun _ => .resolved { status := 429, body := .obj [] }) st =
      { state := { loading := false, error := genericErrorMsg, prompt := st.prompt },
        authAttempts := 1, fetchCalls := 1 } := rfl

/-- C5: when the anonymous sign-in rejects, the displayed message is the
authentication-error string, no call reaches the generation endpoint, the
sign-in was attempted exactly once, and the prior prompt is untouched. -/
theorem analyze_auth_failure (fetchB : Nat → FetchOutcome) (st : UIState) :
    analyzeImage false fetchB st =
      { state := { loading := false, error := authErrorMsg, prompt := st.prompt },
        authAttempts := 1, fetchCalls := 0 } := rfl

/-- C6: on an HTTP 200 response whose body lacks the nested
`candidates[0].content.parts[0].text` field, the displayed prompt is the
literal fallback string and no error is raised (the error message stays
empty). -/
theorem analyze_missing_text_fallback (body : Json) (st : UIState)
    (h : extractText body = none) :
    analyzeImage true (fun _ => .resolved { status := 200, body := body }) st =
      { state := { loading := false, error := "", prompt := .str fallbackPrompt },
        authAttempts := 1, fetchCalls := 1 } := by
  have hg : generatedText body = .str fallbackPrompt := by
    unfold generatedText
    rw [h]
  show (⟨⟨false, "", generatedText body⟩, 1, 1⟩ : AnalyzeOutcome) = _
  rw [hg]

/-- Witness for C6: a response body that is an empty object produces the
fallback prompt and no error. -/
theorem analyze_missing_text_fallback_witness :
    analyzeImage true (fun _ => .resolved { status := 200, body := .obj [] })
        { loading := false, error := "", prompt := .str "" } =
      { state := { loading := false, error := "", prompt := .str fallbackPrompt },
        authAttempts := 1, fetchCalls := 1 } :=
  analyze_missing_text_fallback (.obj []) { loading := false, error := "", prompt := .str "" } rfl

/-- C10: on an HTTP 200 response whose nested
`candidates[0].content.parts[0].text` field is present but the EMPTY
string, the displayed prompt is the literal fallback string, not the empty
string: the `||` treats the falsy empty string like an absent field. -/
theorem analyze_empty_text_fallback (body : Json) (st : UIState)
    (h : extractText body = some (.str "")) :
    analyzeImage true (fun _ => .resolved { status := 200, body := body }) st =
      { state := { loading := false, error := "", prompt := .str fallbackPrompt },
        authAttempts := 1, fetchCalls := 1 } := by
  have hg : generatedText body = .str fallbackPrompt := by
    unfold generatedText
    rw [h]
    rfl
  show (⟨⟨false, "", generatedText body⟩, 1, 1⟩ : AnalyzeOutcome) = _
  rw [hg]

/-- Witness for C10: a response body whose nested text field is `""`
produces the fallback prompt. -/
theorem analyze_empty_text_fallback_witness :
    analyzeImage true
        (fun _ => FetchOutcome.resolved ⟨200,
          Json.obj [("candidates", Json.arr [Json.obj [("content",
            Json.obj [("parts", Json.arr [Json.obj [("text", Json.str "")]])])]])]⟩)
        ⟨false, "", Json.str ""⟩ =
      ⟨⟨false, "", Json.str fallbackPrompt⟩, 1, 1⟩ :=
  analyze_empty_text_fallback
    (Json.obj [("candidates", Json.arr [Json.obj [("content",
      Json.obj [("parts", Json.arr [Json.obj [("text", Json.str "")]])])]])])
    ⟨false, "", Json.str ""⟩ rfl

/-- C8: every run of the flow ends with `loading` reset to `false` and
exactly one user-facing outcome: either the error message is empty and the
prompt was set from some response body, or the error message is the
authentication or the generic failure string and the prompt is untouched. -/
theorem analyze_always_settles (authOk : Bool) (fetchB : Nat → FetchOutcome)
    (st : UIState) :
    (analyzeImage authOk fetchB st).state.loading = false ∧
    (((analyzeImage authOk fetchB st).state.error = "" ∧
        ∃ body, (analyzeImage authOk fetchB st).state.prompt = generatedText body) ∨
      (((analyzeImage authOk fetchB st).state.error = authErrorMsg ∨
        (analyzeImage authOk fetchB st).state.error = genericErrorMsg) ∧
        (analyzeImage authOk fetchB st).state.prompt = st.prompt)) := by
  cases authOk with
  | false => exact ⟨rfl, Or.inr ⟨Or.inl rfl, rfl⟩⟩
  | true =>
    unfold analyzeImage
    rcases hres : (backoffRun (fun i => (fetchB i).toApiResult) 5 1000 0).result with e | resp
    · exact ⟨by simp [hres], Or.inr ⟨Or.inr (by simp [hres]), by simp [hres]⟩⟩
    · by_cases hok : resp.ok = true
      · exact ⟨by simp [hres, hok], Or.inl ⟨by simp [hres, hok],
          resp.body, by simp [hres, hok]⟩⟩
      · exact ⟨by simp [hres, hok], Or.inr ⟨Or.inr (by simp [hres, hok]),
          by simp [hres, hok]⟩⟩

/-! ## Claim theorems: the request payload -/

/-- C7: for every base64 string, the request payload has a single
`contents` entry; its role is `user`; its `parts` are, in order, the fixed
instructional text and an `inlineData` part with mime type `image/png` and
data equal to the given base64 string. -/
theorem payload_shape (b : String) :
    ((payload b).get "contents").bind Json.arrLen = some 1 ∧
    ((((payload b).get "contents").bind (·.idx 0)).bind (·.get "role"))
      = some (.str "user") ∧
    (((((payload b).get "contents").bind (·.idx 0)).bind (·.get "parts")).bind
      Json.arrLen) = some 2 ∧
    ((((((payload b).get "contents").bind (·.idx 0)).bind (·.get "parts")).bind
      (·.idx 0)).bind (·.get "text")) = some (.str instructionText) ∧
    (((((((payload b).get "contents").bind (·.idx 0)).bind (·.get "parts")).bind
      (·.idx 1)).bind (·.get "inlineData")).bind (·.get "mimeType"))
      = some (.str "image/png") ∧
    (((((((payload b).get "contents").bind (·.idx 0)).bind (·.get "parts")).bind
      (·.idx 1)).bind (·.get "inlineData")).bind (·.get "data"))
      = some (.str b) :=
  ⟨rfl, rfl, rfl, rfl, rfl, rfl⟩

/-! ## Claim theorems: clipboard copy -/

/-- C9: for every result string and clipboard environment, invoking copy
shows exactly one alert, either the success or the failure text; the
failure text is shown exactly when the primary mechanism did not succeed
(unavailable or rejecting) AND the fallback `execCommand` throws — never a
silent no-op. -/
theorem copy_always_notifies (prompt : String) (env : ClipEnv) :
    (copyPromptToClipboard prompt env).length = 1 ∧
    (copyPromptToClipboard prompt env = [copySuccessMsg] ∨
      copyPromptToClipboard prompt env = [copyErrorMsg]) ∧
    (copyPromptToClipboard prompt env = [copyErrorMsg] ↔
      ¬(env.primaryAvailable = true ∧ env.primaryWriteSucceeds = true) ∧
        env.execCommandThrows = true) := by
  obtain ⟨pa, pw, ec⟩ := env
  cases pa <;> cases pw <;> cases ec <;>
    simp [copyPromptToClipboard, copyToClipboardFallback, copySuccessMsg, copyErrorMsg]
